import Mathlib

/-!
Verification of the conversational loan-origination demo: the underwriting
decision engine, the orchestration pipeline, the negotiation resolver and the
conversation state machine are embedded shallowly.  Python floats are modelled
by `ℚ`, Python ints by `ℤ`, dict keys read with `.get` defaults by `Option`
fields, and Python truthiness by explicit `truthy` helpers.
-/

set_option maxHeartbeats 1000000

namespace BfsiDemo

/-! ## Underwriting engine (underwriting.py) -/

/-- `compute_emi` from underwriting.py: monthly rate `r = annual_rate_pct/12/100`;
`P/n` when `r = 0`, else the amortized-loan formula.  Tenure is a Python int. -/
def compute_emi (principal : ℚ) (annual_rate_pct : ℚ) (tenure_months : ℤ) : ℚ :=
  let r := annual_rate_pct / 12 / 100
  let n := tenure_months
  if r = 0 then principal / (n : ℚ)
  else principal * r * (1 + r) ^ n / ((1 + r) ^ n - 1)

/-- The application context dict consumed by `evaluate_application`.
`annual_rate_pct` and `monthly_salary` are read with `.get` defaults in the
source, so a missing key is `none`; the other keys are mandatory. -/
structure AppContext where
  customer_phone : String
  loan_amount : ℚ
  tenure_months : ℤ
  annual_rate_pct : Option ℚ
  monthly_salary : Option ℚ
  credit_score : ℤ
  pre_approved_limit : ℤ
deriving DecidableEq

/-- The `details` dict returned beside the decision string. -/
structure Details where
  reason : Option String := none
  emi : Option ℚ := none
deriving DecidableEq

/-- `evaluate_application` from underwriting.py, returning the decision string
and the details dict. -/
def evaluate_application (context : AppContext) : String × Details :=
  let loan_amount := context.loan_amount
  let tenure := context.tenure_months
  let annual_rate := context.annual_rate_pct.getD 12
  let salary := context.monthly_salary.getD 0
  let credit_score := context.credit_score
  let pre_limit := context.pre_approved_limit
  if credit_score < 700 then
    ("REJECT", { reason := some ("Credit score below 700") })
  else if loan_amount ≤ (pre_limit : ℚ) then
    ("APPROVE_INSTANT", { emi := some (compute_emi loan_amount annual_rate tenure) })
  else if loan_amount ≤ ((2 * pre_limit : ℤ) : ℚ) then
    let emi := compute_emi loan_amount annual_rate tenure
    if salary ≤ 0 then
      ("REQUIRE_SALARY", { reason := some ("Need salary slip to evaluate EMI threshold"),
                           emi := some emi })
    else if emi ≤ 0.5 * salary then
      ("APPROVE_INSTANT", { emi := some emi })
    else
      ("REJECT", { reason := some ("EMI exceeds 50% of salary"), emi := some emi })
  else
    ("REJECT", { reason := some ("Loan amount exceeds 2x pre-approved limit") })

/-- Decision policy as the spec states it, for comparison with
`evaluate_application`.  Amended minimally on one point the code forces: a
declared `monthly_salary ≤ 0` behaves exactly like an undeclared salary
(REQUIRE_SALARY), instead of entering the EMI-versus-salary comparison. -/
def spec_decision_policy (ctx : AppContext) : String × Details :=
  let e := compute_emi ctx.loan_amount (ctx.annual_rate_pct.getD 12) ctx.tenure_months
  if ctx.credit_score < 700 then
    ("REJECT", { reason := some ("Credit score below 700") })
  else if ctx.loan_amount ≤ (ctx.pre_approved_limit : ℚ) then
    ("APPROVE_INSTANT", { emi := some e })
  else if ctx.loan_amount ≤ ((2 * ctx.pre_approved_limit : ℤ) : ℚ) then
    match ctx.monthly_salary with
    | none =>
        ("REQUIRE_SALARY", { reason := some ("Need salary slip to evaluate EMI threshold"),
                             emi := some e })
    | some sal =>
        if sal ≤ 0 then
          ("REQUIRE_SALARY", { reason := some ("Need salary slip to evaluate EMI threshold"),
                               emi := some e })
        else if e ≤ 0.5 * sal then
          ("APPROVE_INSTANT", { emi := some e })
        else
          ("REJECT", { reason := some ("EMI exceeds 50% of salary"), emi := some e })
  else
    ("REJECT", { reason := some ("Loan amount exceeds 2x pre-approved limit") })

/-- The REQUIRE_SALARY result produced in the middle band, carrying EMI `e`. -/
def requireSalaryResult (e : ℚ) : String × Details :=
  ("REQUIRE_SALARY", { reason := some ("Need salary slip to evaluate EMI threshold"), emi := some e })

/-- Present value of an `n`-month annuity of 1 at monthly rate `r`:
`∑ (1+r)⁻¹ ^ (k+1)`.  For `r ≥ 0` the EMI is the principal divided by this
factor, which is how monotonicity of the EMI in the rate is proved. -/
def annuityFactor (r : ℚ) (n : ℕ) : ℚ :=
  ∑ k ∈ Finset.range n, ((1 + r)⁻¹) ^ (k + 1)

/-! ## Concrete inputs used by witnesses and counterexamples -/

/-- End-to-end scenario 1 from the spec: amount 400000, tenure 36, rate 12,
profile with credit score 750 and pre-approved limit 500000. -/
def ctxScenario1 : AppContext :=
  { customer_phone := "9876543210", loan_amount := 400000, tenure_months := 36,
    annual_rate_pct := some 12, monthly_salary := none,
    credit_score := 750, pre_approved_limit := 500000 }

/-- Middle-band context with a declared salary of 0. -/
def ctxSalaryZero : AppContext :=
  { customer_phone := "9876543210", loan_amount := 600000, tenure_months := 36,
    annual_rate_pct := some 12, monthly_salary := some 0,
    credit_score := 750, pre_approved_limit := 500000 }

/-- Two contexts that differ only in the phone number. -/
def ctxPhoneA : AppContext :=
  { customer_phone := "1111111111", loan_amount := 600000, tenure_months := 36,
    annual_rate_pct := some 12, monthly_salary := some 50000,
    credit_score := 750, pre_approved_limit := 500000 }

/-- Same as `ctxPhoneA` except for the phone number. -/
def ctxPhoneB : AppContext :=
  { ctxPhoneA with customer_phone := "2222222222" }

/-! ## Conversation state machine, negotiation resolver and orchestration
pipeline (app.py, agents.py).  The data provider (`crm_get_customer_by_phone`)
reads an external JSON record set, so it is passed as a parameter
`crm : String → Option Customer`. -/

/-- A customer record of the mock CRM (`sample_data.json` shape). -/
structure Customer where
  phone : String
  name : String
  address : String
  city : String
  credit_score : ℤ
  pre_approved_limit : ℤ
  monthly_salary : ℚ
deriving DecidableEq

/-- The conversation states of app.py. -/
inductive ConvState where
  | COLLECT_PHONE
  | COLLECT_LOAN
  | COLLECT_TENURE
  | ASK_SALARY_OPTION
  | COLLECT_SALARY
  | READY_TO_RUN
  | DONE
deriving DecidableEq

/-- `st.session_state.collected_data`: dict keys are `Option` fields (a key is
removed with `pop`, so `none` models an absent key); `annual_rate_pct` is
always present since `reset_conversation` sets it. -/
structure SessionData where
  customer_phone : Option String := none
  customer_name : Option String := none
  customer_profile : Option Customer := none
  loan_amount : Option ℚ := none
  tenure_months : Option ℤ := none
  annual_rate_pct : ℚ := 12
  monthly_salary : Option ℚ := none
deriving DecidableEq

/-- The payload dict returned by `master_orchestrate`. -/
structure Payload where
  message : Option String := none
  reason : Option String := none
  emi : Option ℚ := none
  pdf_path : Option String := none
deriving DecidableEq

/-- The per-session streamlit state touched by the handlers (chat messages,
which are presentation only, are not modelled). -/
structure Session where
  conversation_state : ConvState
  collected_data : SessionData
  latest_status : Option String := none
  latest_payload : Option Payload := none
  phone_retry_count : ℕ := 0
deriving DecidableEq

def DEFAULT_RATE : ℚ := 12

def MIN_LOAN : ℚ := 10000

def MIN_TENURE : ℤ := 6

def MAX_TENURE : ℤ := 84

/-- Python truthiness of an optional string (`None` and `""` are falsy). -/
def truthyStr : Option String → Bool
  | none => false
  | some s => if s = "" then false else true

/-- Python truthiness of an optional number (`None` and `0` are falsy). -/
def truthyQ : Option ℚ → Bool
  | none => false
  | some x => if x = 0 then false else true

/-- `reset_conversation` from app.py: fresh context holding only the default
rate, state COLLECT_PHONE, latest status and payload cleared, retry counter 0. -/
def reset_conversation : Session :=
  { conversation_state := ConvState.COLLECT_PHONE,
    collected_data := { annual_rate_pct := DEFAULT_RATE, customer_profile := none },
    latest_status := none,
    latest_payload := none,
    phone_retry_count := 0 }

/-- `compute_best_rate` from app.py: step function of
`profile.get("credit_score", 0)`; an absent profile behaves as the empty dict. -/
def compute_best_rate (profile : Option Customer) : ℚ :=
  let score := (profile.map (fun c => c.credit_score)).getD 0
  if 800 ≤ score then 9.75
  else if 760 ≤ score then 10.25
  else if 720 ≤ score then 10.75
  else if 680 ≤ score then 11.25
  else 11.75

/-- `task_verify` from agents.py: (verified, name, address). -/
def task_verify (crm : String → Option Customer) (phone : String) :
    Bool × String × String :=
  match crm phone with
  | none => (false, "", "")
  | some c => (true, c.name, c.address)

/-- `credit_bureau_get_score` from tools.py: 0 when the phone is unknown. -/
def credit_bureau_get_score (crm : String → Option Customer) (phone : String) : ℤ :=
  match crm phone with
  | none => 0
  | some c => c.credit_score

/-- `offer_mart_get_preapproved_limit` from tools.py: 0 when unknown. -/
def offer_mart_get_preapproved_limit (crm : String → Option Customer)
    (phone : String) : ℤ :=
  match crm phone with
  | none => 0
  | some c => c.pre_approved_limit

/-- The context dict built by `run_master_pipeline` and passed to
`master_orchestrate` (`monthly_salary` only when it is not `None`). -/
structure OrchContext where
  customer_phone : String
  loan_amount : ℚ
  tenure_months : ℤ
  annual_rate_pct : ℚ
  monthly_salary : Option ℚ
deriving DecidableEq

/-- `master_orchestrate` from agents.py: verify, fetch score and limit,
underwrite, and on approval produce the sanction artifact path. -/
def master_orchestrate (crm : String → Option Customer) (context : OrchContext) :
    String × Payload :=
  let verify := task_verify crm context.customer_phone
  if verify.1 = false then
    ("KYC_FAILED", { message := some ("KYC verification failed. Please check phone.") })
  else
    let score := credit_bureau_get_score crm context.customer_phone
    let pre := offer_mart_get_preapproved_limit crm context.customer_phone
    let appCtx : AppContext :=
      { customer_phone := context.customer_phone, loan_amount := context.loan_amount,
        tenure_months := context.tenure_months,
        annual_rate_pct := some context.annual_rate_pct,
        monthly_salary := context.monthly_salary,
        credit_score := score, pre_approved_limit := pre }
    let uw := evaluate_application appCtx
    if uw.1 = "REJECT" then ("REJECT", { reason := uw.2.reason })
    else if uw.1 = "REQUIRE_SALARY" then
      ("REQUIRE_SALARY", { message := some ("Please upload/provide salary to proceed"),
                           emi := uw.2.emi })
    else
      ("APPROVED", { emi := uw.2.emi,
                     pdf_path := some ("sanction_" ++ context.customer_phone ++ ".pdf") })

/-- `run_master_pipeline` from app.py: when the required fields are present it
invokes `master_orchestrate` on the current context values, stores the latest
status and payload, and moves the conversation state per status. -/
def run_master_pipeline (crm : String → Option Customer) (s : Session) : Session :=
  let data := s.collected_data
  if data.customer_phone = none ∨ data.loan_amount = none ∨ data.tenure_months = none then s
  else
    let context : OrchContext :=
      { customer_phone := data.customer_phone.getD "",
        loan_amount := data.loan_amount.getD 0,
        tenure_months := data.tenure_months.getD 0,
        annual_rate_pct := data.annual_rate_pct,
        monthly_salary := data.monthly_salary }
    let result := master_orchestrate crm context
    let s1 : Session := { s with latest_status := some result.1, latest_payload := some result.2 }
    if result.1 = "KYC_FAILED" then
      { s1 with conversation_state := ConvState.COLLECT_PHONE,
                collected_data := { s1.collected_data with
                                    customer_phone := none,
                                    customer_name := none,
                                    customer_profile := none } }
    else if result.1 = "REQUIRE_SALARY" then
      { s1 with conversation_state := ConvState.COLLECT_SALARY }
    else if result.1 = "REJECT" then
      { s1 with conversation_state := ConvState.DONE }
    else if result.1 = "APPROVED" then
      { s1 with conversation_state := ConvState.DONE }
    else
      { s1 with conversation_state := ConvState.DONE }

/-- One user utterance: the raw text (used for the restart guard and digit
extraction) together with the outputs of the regex-based classifiers of
app.py (`extract_number`, `parse_tenure`, `is_positive_response`,
`is_negative_response`, `is_greeting`, `wants_lower_rate`,
`wants_amount_adjustment`), abstracted as fields because the claims quantify
over their results. -/
structure Utterance where
  text : String
  extractNumber : Option ℚ
  parseTenure : Option ℤ
  isPositive : Bool
  isNegative : Bool
  isGreeting : Bool
  wantsLowerRate : Bool
  wantsAmountAdj : Bool
deriving DecidableEq

/-- Which branch of `try_handle_negotiation` produced the reply (the replies
themselves are presentation only). -/
inductive NegOutcome where
  | rateDoneMsg
  | rateUpdated
  | rateHeld
  | amountDoneMsg
  | amountUnclear
  | amountDeclined
  | amountUpdated (reran : Bool)
deriving DecidableEq

/-- `try_handle_negotiation` from app.py.  `none` models `return False`;
`some (s, out)` models `return True` with the mutated session. -/
def try_handle_negotiation (crm : String → Option Customer) (u : Utterance)
    (state : ConvState) (s : Session) : Option (Session × NegOutcome) :=
  let data := s.collected_data
  if truthyStr data.customer_phone then
    let profile := data.customer_profile
    if u.wantsLowerRate then
      let current_rate := data.annual_rate_pct
      let best_rate := compute_best_rate profile
      let requested_rate := u.extractNumber
      if state = ConvState.DONE then some (s, NegOutcome.rateDoneMsg)
      else
        let requested_rate :=
          if truthyQ requested_rate ∧ requested_rate.getD 0 < 5 then none else requested_rate
        let proposed_rate :=
          if truthyQ requested_rate then max best_rate (requested_rate.getD 0)
          else max best_rate (current_rate - 0.5)
        if proposed_rate < current_rate then
          some ({ s with collected_data := { data with annual_rate_pct := proposed_rate } },
            NegOutcome.rateUpdated)
        else some (s, NegOutcome.rateHeld)
    else if truthyQ data.loan_amount ∧ u.wantsAmountAdj then
      let current_amount := data.loan_amount.getD 0
      let new_amount := u.extractNumber
      if state = ConvState.DONE then some (s, NegOutcome.amountDoneMsg)
      else if ¬ truthyQ new_amount ∨ new_amount.getD 0 ≤ 0 then
        some (s, NegOutcome.amountUnclear)
      else if new_amount.getD 0 ≥ current_amount then some (s, NegOutcome.amountDeclined)
      else
        let s2 : Session :=
          { s with collected_data := { data with loan_amount := some (new_amount.getD 0) } }
        if state = ConvState.READY_TO_RUN then
          some (run_master_pipeline crm s2, NegOutcome.amountUpdated true)
        else some (s2, NegOutcome.amountUpdated false)
    else none
  else none

/-- The reserved restart keywords of `handle_user_message`. -/
def restart_keywords : List String := ["restart", "reset", "start over", "new"]

/-- `message.strip().lower()` modelled over the character list (lowercasing
commutes with stripping ASCII whitespace, and `String.trim`/`String.toLower`
are opaque to kernel reduction). -/
def normalize_message (text : String) : String :=
  String.mk ((((text.toList.map Char.toLower).dropWhile Char.isWhitespace).reverse.dropWhile
    Char.isWhitespace).reverse)

/-- `re.sub(r"\D", "", message)`: keep only the digits of the message. -/
def extract_digits (text : String) : List Char := text.toList.filter Char.isDigit

/-- `digits[-10:]`: the last ten characters. -/
def last_ten (digits : List Char) : String := String.mk ((digits.reverse.take 10).reverse)

/-- `handle_user_message` from app.py: restart guard, negotiation interception,
then the state dispatch. -/
def handle_user_message (crm : String → Option Customer) (u : Utterance)
    (s : Session) : Session :=
  if normalize_message u.text ∈ restart_keywords then reset_conversation
  else
    let state := s.conversation_state
    match try_handle_negotiation crm u state s with
    | some r => r.1
    | none =>
      match state with
      | ConvState.DONE => s
      | ConvState.COLLECT_PHONE =>
        let digits := extract_digits u.text
        if digits.length = 0 then
          if u.isGreeting then { s with phone_retry_count := 0 }
          else if u.isNegative then s
          else { s with phone_retry_count := s.phone_retry_count + 1 }
        else if digits.length < 10 then { s with phone_retry_count := s.phone_retry_count + 1 }
        else
          let phone := last_ten digits
          let s1 : Session :=
            { s with collected_data := { s.collected_data with customer_phone := some phone },
                     phone_retry_count := 0 }
          match crm phone with
          | none =>
            { s1 with collected_data := { s1.collected_data with customer_phone := none } }
          | some cust =>
            { s1 with collected_data := { s1.collected_data with
                        customer_name := some cust.name, customer_profile := some cust },
                      conversation_state := ConvState.COLLECT_LOAN }
      | ConvState.COLLECT_LOAN =>
        match u.extractNumber with
        | none => s
        | some amount =>
          if amount < MIN_LOAN then s
          else { s with collected_data := { s.collected_data with loan_amount := some amount },
                        conversation_state := ConvState.COLLECT_TENURE }
      | ConvState.COLLECT_TENURE =>
        match u.parseTenure with
        | none => s
        | some tenure =>
          if tenure < MIN_TENURE ∨ MAX_TENURE < tenure then s
          else { s with collected_data := { s.collected_data with tenure_months := some tenure },
                        conversation_state := ConvState.ASK_SALARY_OPTION }
      | ConvState.ASK_SALARY_OPTION =>
        if u.isPositive then { s with conversation_state := ConvState.COLLECT_SALARY }
        else if u.isNegative then
          run_master_pipeline crm { s with conversation_state := ConvState.READY_TO_RUN }
        else s
      | ConvState.COLLECT_SALARY =>
        match u.extractNumber with
        | none => s
        | some salary =>
          if salary ≤ 0 then s
          else
            run_master_pipeline crm
              { s with collected_data := { s.collected_data with monthly_salary := some salary },
                       conversation_state := ConvState.READY_TO_RUN }
      | ConvState.READY_TO_RUN => run_master_pipeline crm s

/-- The proposed rate exactly as claim C4 words it: `max(best, requested)`
when a numeric rate `≥ 5` was parsed from the utterance, else
`max(best, current − 0.5)`. -/
def spec_proposed_rate (best current : ℚ) (parsed : Option ℚ) : ℚ :=
  match parsed with
  | some x => if 5 ≤ x then max best x else max best (current - 0.5)
  | none => max best (current - 0.5)

/-- The session with the stored annual rate replaced. -/
def with_rate (s : Session) (r : ℚ) : Session :=
  { s with collected_data := { s.collected_data with annual_rate_pct := r } }

/-- The session with the stored loan amount replaced. -/
def with_amount (s : Session) (a : ℚ) : Session :=
  { s with collected_data := { s.collected_data with loan_amount := some a } }

/-! ## Concrete sessions, utterances and providers for witnesses -/

/-- A sample CRM customer. -/
def custAsha : Customer :=
  { phone := "9876543210", name := "Asha", address := "12 MG Road", city := "Pune",
    credit_score := 750, pre_approved_limit := 500000, monthly_salary := 80000 }

/-- A CRM with one customer. -/
def crmTest : String → Option Customer :=
  fun p => if p = "9876543210" then some custAsha else none

/-- A CRM that knows nobody. -/
def crmEmpty : String → Option Customer := fun _ => none

/-- The utterance "reset" with no classifier hits. -/
def uRestart : Utterance :=
  { text := "reset", extractNumber := none, parseTenure := none, isPositive := false,
    isNegative := false, isGreeting := false, wantsLowerRate := false, wantsAmountAdj := false }

/-- A bare 10-digit phone number utterance. -/
def uPhoneDigits : Utterance :=
  { text := "9876543210", extractNumber := some 9876543210, parseTenure := none,
    isPositive := false, isNegative := false, isGreeting := false,
    wantsLowerRate := false, wantsAmountAdj := false }

/-- A rate-reduction request with no number mentioned. -/
def uRateRequest : Utterance :=
  { text := "can you lower my interest rate", extractNumber := none, parseTenure := none,
    isPositive := false, isNegative := false, isGreeting := false,
    wantsLowerRate := true, wantsAmountAdj := false }

/-- An amount-adjustment request naming 30000. -/
def uAmountSmaller : Utterance :=
  { text := "make the loan 30000 instead", extractNumber := some 30000, parseTenure := none,
    isPositive := false, isNegative := false, isGreeting := false,
    wantsLowerRate := false, wantsAmountAdj := true }

/-- An amount-adjustment request whose parsed number is 0. -/
def uAmountZero : Utterance :=
  { text := "0 instead", extractNumber := some 0, parseTenure := none, isPositive := false,
    isNegative := false, isGreeting := false, wantsLowerRate := false, wantsAmountAdj := true }

/-- A mid-collection session: phone verified, loan 50000 noted, tenure pending. -/
def sessLoan : Session :=
  { conversation_state := ConvState.COLLECT_TENURE,
    collected_data := { customer_phone := some ("9876543210"),
                        customer_name := some ("Asha"),
                        customer_profile := some custAsha, loan_amount := some 50000,
                        tenure_months := none, annual_rate_pct := 12, monthly_salary := none },
    latest_status := none, latest_payload := none, phone_retry_count := 0 }

/-- A fully collected session ready for the pipeline. -/
def sessReady : Session :=
  { conversation_state := ConvState.READY_TO_RUN,
    collected_data := { customer_phone := some ("9876543210"),
                        customer_name := some ("Asha"),
                        customer_profile := some custAsha, loan_amount := some 400000,
                        tenure_months := some 36, annual_rate_pct := 12, monthly_salary := none },
    latest_status := none, latest_payload := none, phone_retry_count := 0 }

/-! ## Annuity-factor lemmas -/

lemma annuityFactor_zero_rate (n : ℕ) : annuityFactor 0 n = n := by
  simp [annuityFactor]

lemma annuityFactor_pos (r : ℚ) (hr : 0 ≤ r) (n : ℕ) (hn : 1 ≤ n) :
    0 < annuityFactor r n := by
  have h1 : (0 : ℚ) < 1 + r := by linarith
  refine Finset.sum_pos (fun i _ => pow_pos (inv_pos.mpr h1) _) ?_
  exact ⟨0, Finset.mem_range.mpr (by omega)⟩

lemma annuityFactor_succ (r : ℚ) (m : ℕ) :
    annuityFactor r (m + 1) = annuityFactor r m + ((1 + r)⁻¹) ^ (m + 1) := by
  simp [annuityFactor, Finset.sum_range_succ]

lemma annuityFactor_mul (r : ℚ) (h1 : (1 : ℚ) + r ≠ 0) (n : ℕ) :
    r * annuityFactor r n = 1 - ((1 + r)⁻¹) ^ n := by
  induction n with
  | zero => simp [annuityFactor]
  | succ m ih =>
      have key : ((1 + r)⁻¹) ^ (m + 1) * (1 + r) = ((1 + r)⁻¹) ^ m := by
        rw [pow_succ]
        field_simp
        ring
      rw [annuityFactor_succ, mul_add, ih]
      linear_combination key

lemma annuityFactor_strict_anti (r1 r2 : ℚ) (h0 : 0 ≤ r1) (h12 : r1 < r2)
    (n : ℕ) (hn : 1 ≤ n) : annuityFactor r2 n < annuityFactor r1 n := by
  have ha : (0 : ℚ) < 1 + r1 := by linarith
  have hb : (0 : ℚ) < 1 + r2 := by linarith
  refine Finset.sum_lt_sum_of_nonempty ⟨0, Finset.mem_range.mpr (by omega)⟩ ?_
  intro i _
  have hy : (1 + r2)⁻¹ < (1 + r1)⁻¹ := inv_strictAnti₀ ha (by linarith)
  exact pow_lt_pow_left₀ hy (le_of_lt (inv_pos.mpr hb)) (by omega)

/-- For a nonnegative rate and a positive tenure, `compute_emi` is the
principal divided by the annuity factor of the monthly rate. -/
lemma compute_emi_eq_div (P a : ℚ) (n : ℤ) (ha : 0 ≤ a) (hn : 1 ≤ n) :
    compute_emi P a n = P / annuityFactor (a / 12 / 100) n.toNat := by
  have hnn : (0 : ℤ) ≤ n := by omega
  have hnat : ((n.toNat : ℤ)) = n := Int.toNat_of_nonneg hnn
  have hm1 : 1 ≤ n.toNat := by omega
  rcases eq_or_lt_of_le ha with h0 | hpos
  · have ha0 : a = 0 := h0.symm
    subst ha0
    have hr0 : (0 : ℚ) / 12 / 100 = 0 := by norm_num
    rw [hr0, annuityFactor_zero_rate]
    simp only [compute_emi]
    rw [if_pos hr0]
    congr 1
    exact_mod_cast hnat.symm
  · have hr : 0 < a / 12 / 100 := by positivity
    have hrne : a / 12 / 100 ≠ 0 := ne_of_gt hr
    have h1r : (0 : ℚ) < 1 + a / 12 / 100 := by linarith
    have h1rne : (1 : ℚ) + a / 12 / 100 ≠ 0 := ne_of_gt h1r
    have hpow : (1 + a / 12 / 100) ^ n = (1 + a / 12 / 100) ^ n.toNat := by
      conv_lhs => rw [← hnat]
      rw [zpow_natCast]
    have hx1 : (1 : ℚ) < (1 + a / 12 / 100) ^ n.toNat :=
      one_lt_pow₀ (by linarith) (by omega)
    have hxne : (1 + a / 12 / 100) ^ n.toNat - 1 ≠ 0 :=
      sub_ne_zero.mpr (ne_of_gt hx1)
    have hS := annuityFactor_mul (a / 12 / 100) h1rne n.toNat
    have hSpos := annuityFactor_pos (a / 12 / 100) (le_of_lt hr) n.toNat hm1
    have hinv : ((1 + a / 12 / 100)⁻¹) ^ n.toNat * (1 + a / 12 / 100) ^ n.toNat = 1 := by
      rw [← mul_pow, inv_mul_cancel₀ h1rne, one_pow]
    simp only [compute_emi]
    rw [if_neg hrne, hpow, div_eq_div_iff hxne (ne_of_gt hSpos)]
    linear_combination (P * (1 + a / 12 / 100) ^ n.toNat) * hS - P * hinv

/-- `compute_emi` at a natural-number tenure, with the integer power unfolded
to a natural power so that `norm_num` can evaluate it. -/
lemma compute_emi_coe_nat (P a : ℚ) (m : ℕ) :
    compute_emi P a (m : ℤ) =
      if a / 12 / 100 = 0 then P / (m : ℚ)
      else P * (a / 12 / 100) * (1 + a / 12 / 100) ^ m / ((1 + a / 12 / 100) ^ m - 1) := by
  simp [compute_emi, zpow_natCast]

lemma compute_emi_pos (P a : ℚ) (n : ℤ) (hP : 0 < P) (ha : 0 ≤ a) (hn : 1 ≤ n) :
    0 < compute_emi P a n := by
  rw [compute_emi_eq_div P a n ha hn]
  exact div_pos hP (annuityFactor_pos _ (by positivity) _ (by omega))

/-- Rational bounds on the scenario-1 EMI. -/
lemma emi_scenario1_bounds :
    13285.71 ≤ compute_emi 400000 12 36 ∧ compute_emi 400000 12 36 ≤ 13285.73 := by
  have h : compute_emi 400000 12 36 = compute_emi 400000 12 ((36 : ℕ) : ℤ) := rfl
  rw [h, compute_emi_coe_nat]
  norm_num

/-- Evaluation inside the middle band with undeclared or non-positive salary. -/
lemma evaluate_middle_band (ctx : AppContext) (h700 : ¬ ctx.credit_score < 700)
    (hlo : ¬ ctx.loan_amount ≤ (ctx.pre_approved_limit : ℚ))
    (hhi : ctx.loan_amount ≤ ((2 * ctx.pre_approved_limit : ℤ) : ℚ))
    (hsal : ctx.monthly_salary.getD 0 ≤ 0) :
    evaluate_application ctx =
      requireSalaryResult
        (compute_emi ctx.loan_amount (ctx.annual_rate_pct.getD 12) ctx.tenure_months) := by
  simp only [evaluate_application, requireSalaryResult]
  rw [if_neg h700, if_neg hlo, if_pos hhi, if_pos hsal]

/-! ## Claim theorems -/

/-- C1 (amended): `evaluate_application` matches the first-match
decision table, amended only where the code forces it: in the middle band a
declared salary that is `≤ 0` behaves like an undeclared salary and yields
REQUIRE_SALARY rather than entering the EMI-versus-salary comparison. -/
theorem c1_decision_policy (ctx : AppContext) :
    evaluate_application ctx = spec_decision_policy ctx := by
  obtain ⟨ph, la, t, ar, ms, cs, pl⟩ := ctx
  cases ms with
  | none => rfl
  | some s =>
      simp only [evaluate_application, spec_decision_policy, Option.getD_some]

/-- C1 counterexample to the claim as stated: a context in the middle band
with a declared salary of 0.  The stated conditions (salary declared, EMI
greater than half the salary) demand REJECT, but the code returns
REQUIRE_SALARY. -/
theorem c1_salary_zero_counterexample :
    ctxSalaryZero.monthly_salary = some 0 ∧
    ¬ compute_emi ctxSalaryZero.loan_amount 12 36 ≤ 0.5 * 0 ∧
    (evaluate_application ctxSalaryZero).1 = "REQUIRE_SALARY" ∧
    (evaluate_application ctxSalaryZero).1 ≠ "REJECT" := by
  have hpos : 0 < compute_emi 600000 12 36 :=
    compute_emi_pos 600000 12 36 (by norm_num) (by norm_num) (by norm_num)
  have heval : (evaluate_application ctxSalaryZero).1 = "REQUIRE_SALARY" := by
    norm_num [evaluate_application, ctxSalaryZero]
  refine ⟨rfl, ?_, heval, ?_⟩
  · show ¬ compute_emi 600000 12 36 ≤ 0.5 * 0
    rw [not_le]
    have h0 : (0.5 : ℚ) * 0 = 0 := by norm_num
    rw [h0]
    exact hpos
  · rw [heval]
    decide

/-- C2: `compute_emi` equals the standard amortized-loan formula, equals `P/n`
exactly when the rate is 0, is deterministic, and is strictly monotone in the
annual rate (so it strictly decreases as the rate decreases). -/
theorem c2_compute_emi (P a : ℚ) (n : ℤ) (hP : 0 < P) (hn : 1 ≤ n) (ha : 0 ≤ a) :
    (a = 0 → compute_emi P a n = P / (n : ℚ)) ∧
    (a ≠ 0 → compute_emi P a n =
        P * (a / 12 / 100) * (1 + a / 12 / 100) ^ n / ((1 + a / 12 / 100) ^ n - 1)) ∧
    (∀ P2 a2 : ℚ, ∀ n2 : ℤ, P2 = P → a2 = a → n2 = n →
        compute_emi P2 a2 n2 = compute_emi P a n) ∧
    (∀ a2 : ℚ, 0 ≤ a2 → a2 < a → compute_emi P a2 n < compute_emi P a n) := by
  refine ⟨?_, ?_, ?_, ?_⟩
  · intro ha0
    subst ha0
    simp only [compute_emi]
    rw [if_pos (by norm_num)]
  · intro ha0
    have hrne : a / 12 / 100 ≠ 0 :=
      div_ne_zero (div_ne_zero ha0 (by norm_num)) (by norm_num)
    simp only [compute_emi]
    rw [if_neg hrne]
  · intro P2 a2 n2 h1 h2 h3
    subst h1
    subst h2
    subst h3
    rfl
  · intro a2 h2 h2a
    rw [compute_emi_eq_div P a2 n h2 hn, compute_emi_eq_div P a n ha hn]
    have hr12 : a2 / 12 / 100 < a / 12 / 100 := by
      calc a2 / 12 / 100 = a2 * (1 / 1200) := by ring
        _ < a * (1 / 1200) := mul_lt_mul_of_pos_right h2a (by norm_num)
        _ = a / 12 / 100 := by ring
    have hS := annuityFactor_strict_anti (a2 / 12 / 100) (a / 12 / 100)
      (by positivity) hr12 n.toNat (by omega)
    have hSpos := annuityFactor_pos (a / 12 / 100) (by positivity) n.toNat (by omega)
    exact div_lt_div_of_pos_left hP hSpos hS

/-- C2 witness: at `P = 1200`, `n = 12`, dropping the annual rate from 12 to 0
strictly decreases the EMI. -/
theorem c2_compute_emi_witness :
    (0 : ℚ) < 1200 ∧ (1 : ℤ) ≤ 12 ∧ (0 : ℚ) ≤ 12 ∧ (0 : ℚ) < 12 ∧
    compute_emi 1200 0 12 < compute_emi 1200 12 12 :=
  ⟨by norm_num, by norm_num, by norm_num, by norm_num,
    (c2_compute_emi 1200 12 12 (by norm_num) (by norm_num) (by norm_num)).2.2.2 0
      le_rfl (by norm_num)⟩

/-- C3 counterexample: scenario 1 is approved, but its EMI is not within 0.01
of the figure 13289.48 stated in the spec. -/
theorem c3_scenario1_counterexample :
    (evaluate_application ctxScenario1).1 = "APPROVE_INSTANT" ∧
    (evaluate_application ctxScenario1).2.emi = some (compute_emi 400000 12 36) ∧
    ¬ |compute_emi 400000 12 36 - 13289.48| ≤ (0.01 : ℚ) := by
  refine ⟨?_, ?_, ?_⟩
  · norm_num [evaluate_application, ctxScenario1]
  · norm_num [evaluate_application, ctxScenario1]
  · have hb := emi_scenario1_bounds.2
    have habs : (13289.48 : ℚ) - compute_emi 400000 12 36 ≤
        |compute_emi 400000 12 36 - 13289.48| := by
      rw [abs_sub_comm]
      exact le_abs_self _
    rw [not_le]
    linarith

/-- C3 (amended): scenario 1 (amount 400000, tenure 36, rate 12, credit score
750, limit 500000) is APPROVE_INSTANT with EMI within 0.01 of 13285.72. -/
theorem c3_scenario1 :
    evaluate_application ctxScenario1 =
      ("APPROVE_INSTANT", { emi := some (compute_emi 400000 12 36) }) ∧
    |compute_emi 400000 12 36 - 13285.72| ≤ (0.01 : ℚ) := by
  constructor
  · norm_num [evaluate_application, ctxScenario1]
  · rw [abs_le]
    constructor
    · linarith [emi_scenario1_bounds.1]
    · linarith [emi_scenario1_bounds.2]

/-- C9: in the middle band a missing `monthly_salary` key and a declared
salary `≤ 0` produce identical results, namely REQUIRE_SALARY with the
computed EMI; and a missing `annual_rate_pct` key behaves exactly like a
declared rate of 12. -/
theorem c9_salary_and_rate_defaults (ctx : AppContext) (h700 : 700 ≤ ctx.credit_score)
    (hlo : (ctx.pre_approved_limit : ℚ) < ctx.loan_amount)
    (hhi : ctx.loan_amount ≤ ((2 * ctx.pre_approved_limit : ℤ) : ℚ)) :
    (∀ sal : ℚ, sal ≤ 0 →
        evaluate_application { ctx with monthly_salary := some sal } =
          evaluate_application { ctx with monthly_salary := none }) ∧
    evaluate_application { ctx with monthly_salary := none } =
      requireSalaryResult
        (compute_emi ctx.loan_amount (ctx.annual_rate_pct.getD 12) ctx.tenure_months) ∧
    (∀ c : AppContext,
        evaluate_application { c with annual_rate_pct := none } =
          evaluate_application { c with annual_rate_pct := some 12 }) := by
  have h700n : ¬ ctx.credit_score < 700 := not_lt.mpr h700
  have hlon : ¬ ctx.loan_amount ≤ (ctx.pre_approved_limit : ℚ) := not_le.mpr hlo
  refine ⟨?_, ?_, ?_⟩
  · intro sal hsal
    rw [evaluate_middle_band { ctx with monthly_salary := some sal } h700n hlon hhi hsal,
      evaluate_middle_band { ctx with monthly_salary := none } h700n hlon hhi le_rfl]
  · exact evaluate_middle_band _ h700n hlon hhi (by simp)
  · intro c
    obtain ⟨ph, la, t, ar, ms, cs, pl⟩ := c
    rfl

/-- C9 witness: the middle-band facts at a concrete context, concluding
REQUIRE_SALARY with the computed EMI for the undeclared-salary variant. -/
theorem c9_salary_and_rate_defaults_witness :
    700 ≤ ctxSalaryZero.credit_score ∧
    (ctxSalaryZero.pre_approved_limit : ℚ) < ctxSalaryZero.loan_amount ∧
    ctxSalaryZero.loan_amount ≤ ((2 * ctxSalaryZero.pre_approved_limit : ℤ) : ℚ) ∧
    evaluate_application { ctxSalaryZero with monthly_salary := none } =
      requireSalaryResult (compute_emi ctxSalaryZero.loan_amount
        (ctxSalaryZero.annual_rate_pct.getD 12) ctxSalaryZero.tenure_months) :=
  ⟨by norm_num [ctxSalaryZero], by norm_num [ctxSalaryZero], by norm_num [ctxSalaryZero],
    (c9_salary_and_rate_defaults ctxSalaryZero (by norm_num [ctxSalaryZero])
      (by norm_num [ctxSalaryZero]) (by norm_num [ctxSalaryZero])).2.1⟩

/-- C10: `evaluate_application` does not depend on the phone number: two
contexts agreeing on every field except `customer_phone` evaluate equally. -/
theorem c10_phone_independence (c1 c2 : AppContext)
    (h1 : c1.loan_amount = c2.loan_amount) (h2 : c1.tenure_months = c2.tenure_months)
    (h3 : c1.annual_rate_pct = c2.annual_rate_pct)
    (h4 : c1.monthly_salary = c2.monthly_salary)
    (h5 : c1.credit_score = c2.credit_score)
    (h6 : c1.pre_approved_limit = c2.pre_approved_limit) :
    evaluate_application c1 = evaluate_application c2 := by
  obtain ⟨p1, la1, t1, ar1, ms1, cs1, pl1⟩ := c1
  obtain ⟨p2, la2, t2, ar2, ms2, cs2, pl2⟩ := c2
  simp only at h1 h2 h3 h4 h5 h6
  subst h1
  subst h2
  subst h3
  subst h4
  subst h5
  subst h6
  rfl

/-- C10 witness: two concrete contexts differing only in the phone. -/
theorem c10_phone_independence_witness :
    evaluate_application ctxPhoneA = evaluate_application ctxPhoneB :=
  c10_phone_independence ctxPhoneA ctxPhoneB rfl rfl rfl rfl rfl rfl

/-! ## Negotiation, restart, pipeline and phone-collection theorems -/

/-- The emi detail is the freshly computed EMI whenever the decision is not
REJECT. -/
lemma evaluate_application_emi (ctx : AppContext)
    (h : (evaluate_application ctx).1 ≠ "REJECT") :
    (evaluate_application ctx).2.emi =
      some (compute_emi ctx.loan_amount (ctx.annual_rate_pct.getD 12) ctx.tenure_months) := by
  simp only [evaluate_application] at h ⊢
  split_ifs at h ⊢ <;> simp_all

/-- `master_orchestrate` reports KYC_FAILED exactly when the phone is unknown. -/
lemma master_orchestrate_kyc (crm : String → Option Customer) (ctx : OrchContext) :
    ((master_orchestrate crm ctx).1 = "KYC_FAILED" ↔ crm ctx.customer_phone = none) := by
  unfold master_orchestrate task_verify
  cases h : crm ctx.customer_phone with
  | none => simp [h]
  | some c =>
    simp only [h]
    split_ifs <;> simp_all

/-- On APPROVED or REQUIRE_SALARY, the payload emi of `master_orchestrate` is
the EMI recomputed from the context passed in. -/
lemma master_orchestrate_emi (crm : String → Option Customer) (ctx : OrchContext)
    (hst : (master_orchestrate crm ctx).1 = "APPROVED" ∨
      (master_orchestrate crm ctx).1 = "REQUIRE_SALARY") :
    (master_orchestrate crm ctx).2.emi =
      some (compute_emi ctx.loan_amount ctx.annual_rate_pct ctx.tenure_months) := by
  unfold master_orchestrate task_verify at hst ⊢
  cases h : crm ctx.customer_phone with
  | none => simp [h] at hst
  | some c =>
    simp only [h] at hst ⊢
    split_ifs at hst ⊢ <;> simp_all [evaluate_application_emi]

/-- C7: every pipeline invocation recomputes from the current context: the
stored status and payload are exactly `master_orchestrate` of the current
phone, loan amount, tenure, rate and salary; KYC is re-verified (KYC_FAILED
exactly when the phone is unknown now); and on APPROVED or REQUIRE_SALARY the
payload emi is `compute_emi` of the current loan amount, rate and tenure, so
it is never stale after a negotiation changed any of the three. -/
theorem c7_pipeline_recompute (crm : String → Option Customer) (s : Session)
    (p : String) (la : ℚ) (t : ℤ)
    (hp : s.collected_data.customer_phone = some p)
    (hla : s.collected_data.loan_amount = some la)
    (ht : s.collected_data.tenure_months = some t) :
    (run_master_pipeline crm s).latest_status =
      some ((master_orchestrate crm
        { customer_phone := p, loan_amount := la, tenure_months := t,
          annual_rate_pct := s.collected_data.annual_rate_pct,
          monthly_salary := s.collected_data.monthly_salary }).1) ∧
    (run_master_pipeline crm s).latest_payload =
      some ((master_orchestrate crm
        { customer_phone := p, loan_amount := la, tenure_months := t,
          annual_rate_pct := s.collected_data.annual_rate_pct,
          monthly_salary := s.collected_data.monthly_salary }).2) ∧
    ((run_master_pipeline crm s).latest_status = some ("KYC_FAILED") ↔ crm p = none) ∧
    (∀ pl : Payload, (run_master_pipeline crm s).latest_payload = some pl →
      ((run_master_pipeline crm s).latest_status = some ("APPROVED") ∨
        (run_master_pipeline crm s).latest_status = some ("REQUIRE_SALARY")) →
      pl.emi = some (compute_emi la s.collected_data.annual_rate_pct t)) := by
  have hrun : (run_master_pipeline crm s).latest_status =
        some ((master_orchestrate crm
          { customer_phone := p, loan_amount := la, tenure_months := t,
            annual_rate_pct := s.collected_data.annual_rate_pct,
            monthly_salary := s.collected_data.monthly_salary }).1) ∧
      (run_master_pipeline crm s).latest_payload =
        some ((master_orchestrate crm
          { customer_phone := p, loan_amount := la, tenure_months := t,
            annual_rate_pct := s.collected_data.annual_rate_pct,
            monthly_salary := s.collected_data.monthly_salary }).2) := by
    simp only [run_master_pipeline, hp, hla, ht, Option.getD_some]
    rw [if_neg (by simp)]
    split_ifs <;> simp
  refine ⟨hrun.1, hrun.2, ?_, ?_⟩
  · rw [hrun.1]
    constructor
    · intro hk
      have : (master_orchestrate crm
          { customer_phone := p, loan_amount := la, tenure_months := t,
            annual_rate_pct := s.collected_data.annual_rate_pct,
            monthly_salary := s.collected_data.monthly_salary }).1 = "KYC_FAILED" := by
        simpa using hk
      exact (master_orchestrate_kyc crm _).mp this
    · intro hn
      have := (master_orchestrate_kyc crm
        { customer_phone := p, loan_amount := la, tenure_months := t,
          annual_rate_pct := s.collected_data.annual_rate_pct,
          monthly_salary := s.collected_data.monthly_salary }).mpr hn
      simp [this]
  · intro pl hpl hor
    rw [hrun.2] at hpl
    rw [hrun.1] at hor
    have hpl2 : pl = (master_orchestrate crm
        { customer_phone := p, loan_amount := la, tenure_months := t,
          annual_rate_pct := s.collected_data.annual_rate_pct,
          monthly_salary := s.collected_data.monthly_salary }).2 := by
      simpa using hpl.symm
    have hor2 : (master_orchestrate crm
          { customer_phone := p, loan_amount := la, tenure_months := t,
            annual_rate_pct := s.collected_data.annual_rate_pct,
            monthly_salary := s.collected_data.monthly_salary }).1 = "APPROVED" ∨
        (master_orchestrate crm
          { customer_phone := p, loan_amount := la, tenure_months := t,
            annual_rate_pct := s.collected_data.annual_rate_pct,
            monthly_salary := s.collected_data.monthly_salary }).1 = "REQUIRE_SALARY" := by
      rcases hor with h1 | h1
      · exact Or.inl (by simpa using h1)
      · exact Or.inr (by simpa using h1)
    rw [hpl2]
    simpa using master_orchestrate_emi crm _ hor2

/-- C7 witness: for the concrete ready session, the stored status is KYC_FAILED
exactly when the test CRM does not know the phone. -/
theorem c7_pipeline_recompute_witness :
    ((run_master_pipeline crmTest sessReady).latest_status = some ("KYC_FAILED") ↔
      crmTest "9876543210" = none) :=
  (c7_pipeline_recompute crmTest sessReady "9876543210" 400000 36 rfl rfl rfl).2.2.1

/-- C4: in a non-terminal state, the rate-reduction branch computes exactly
the claim proposal (`max(best, requested)` for a parsed rate `≥ 5`, else
`max(best, current − 0.5)`), updates the stored rate only when the proposal is
strictly below the current rate, never increases the stored rate, and the
proposal — hence any updated value — is never below the credit-score-tier
floor `compute_best_rate`. -/
theorem c4_rate_negotiation (crm : String → Option Customer) (u : Utterance)
    (state : ConvState) (s : Session)
    (hphone : truthyStr s.collected_data.customer_phone = true)
    (hrate : u.wantsLowerRate = true) (hstate : state ≠ ConvState.DONE) :
    try_handle_negotiation crm u state s =
      some (if spec_proposed_rate (compute_best_rate s.collected_data.customer_profile)
                s.collected_data.annual_rate_pct u.extractNumber <
              s.collected_data.annual_rate_pct
            then (with_rate s
                    (spec_proposed_rate (compute_best_rate s.collected_data.customer_profile)
                      s.collected_data.annual_rate_pct u.extractNumber),
                  NegOutcome.rateUpdated)
            else (s, NegOutcome.rateHeld)) ∧
    compute_best_rate s.collected_data.customer_profile ≤
      spec_proposed_rate (compute_best_rate s.collected_data.customer_profile)
        s.collected_data.annual_rate_pct u.extractNumber ∧
    (∀ s2 out, try_handle_negotiation crm u state s = some (s2, out) →
      s2.collected_data.annual_rate_pct ≤ s.collected_data.annual_rate_pct) := by
  have hbest : compute_best_rate s.collected_data.customer_profile ≤
      spec_proposed_rate (compute_best_rate s.collected_data.customer_profile)
        s.collected_data.annual_rate_pct u.extractNumber := by
    unfold spec_proposed_rate
    cases u.extractNumber with
    | none => exact le_max_left _ _
    | some x =>
      dsimp only
      split_ifs <;> exact le_max_left _ _
  have hmain : try_handle_negotiation crm u state s =
      some (if spec_proposed_rate (compute_best_rate s.collected_data.customer_profile)
                s.collected_data.annual_rate_pct u.extractNumber <
              s.collected_data.annual_rate_pct
            then (with_rate s
                    (spec_proposed_rate (compute_best_rate s.collected_data.customer_profile)
                      s.collected_data.annual_rate_pct u.extractNumber),
                  NegOutcome.rateUpdated)
            else (s, NegOutcome.rateHeld)) := by
    simp only [try_handle_negotiation, hphone, hrate, if_true, with_rate]
    rw [if_neg hstate]
    cases hparse : u.extractNumber with
    | none => simp [truthyQ, spec_proposed_rate, apply_ite]
    | some x =>
      rcases lt_or_le x 5 with h5 | h5
      · rcases eq_or_ne x 0 with hx | hx
        · subst hx
          simp [truthyQ, spec_proposed_rate, apply_ite, show ¬ (5:ℚ) ≤ 0 by norm_num]
        · simp [truthyQ, spec_proposed_rate, apply_ite, hx, h5, not_le.mpr h5]
      · have hx : x ≠ 0 := by
          intro h0
          rw [h0] at h5
          norm_num at h5
        simp [truthyQ, spec_proposed_rate, apply_ite, hx, h5, not_lt.mpr h5]
  refine ⟨hmain, hbest, ?_⟩
  intro s2 out h
  rw [hmain] at h
  split_ifs at h with hlt
  · simp only [Option.some.injEq, Prod.mk.injEq] at h
    rw [← h.1]
    exact le_of_lt hlt
  · simp only [Option.some.injEq, Prod.mk.injEq] at h
    rw [← h.1]

/-- C4 witness: a concrete handled rate request where the branch hypotheses
hold and the proposal respects the tier floor. -/
theorem c4_rate_negotiation_witness :
    truthyStr sessLoan.collected_data.customer_phone = true ∧
    uRateRequest.wantsLowerRate = true ∧
    ConvState.COLLECT_TENURE ≠ ConvState.DONE ∧
    compute_best_rate sessLoan.collected_data.customer_profile ≤
      spec_proposed_rate (compute_best_rate sessLoan.collected_data.customer_profile)
        sessLoan.collected_data.annual_rate_pct uRateRequest.extractNumber :=
  ⟨by decide, rfl, by decide,
    (c4_rate_negotiation crmEmpty uRateRequest ConvState.COLLECT_TENURE sessLoan
      (by decide) rfl (by decide)).2.1⟩

/-- C5 (amended): in a non-terminal state with a truthy loan amount on file,
an amount-adjustment utterance with parsed amount `a` is declined (session
unchanged) when `a ≥` the current amount; a parse of 0 is treated as
unparseable and re-prompted with the amount unchanged; a positive smaller `a`
replaces the loan amount, and the pipeline is re-invoked immediately if and
only if the state was READY_TO_RUN. -/
theorem c5_amount_negotiation (crm : String → Option Customer) (u : Utterance)
    (state : ConvState) (s : Session) (la a : ℚ)
    (hphone : truthyStr s.collected_data.customer_phone = true)
    (hnr : u.wantsLowerRate = false) (hadj : u.wantsAmountAdj = true)
    (hstate : state ≠ ConvState.DONE)
    (hla : s.collected_data.loan_amount = some la) (hla0 : la ≠ 0)
    (hparse : u.extractNumber = some a) (ha : 0 ≤ a) :
    (a = 0 → try_handle_negotiation crm u state s = some (s, NegOutcome.amountUnclear)) ∧
    (0 < a → la ≤ a →
      try_handle_negotiation crm u state s = some (s, NegOutcome.amountDeclined)) ∧
    (0 < a → a < la →
      try_handle_negotiation crm u state s =
        some (if state = ConvState.READY_TO_RUN
              then (run_master_pipeline crm (with_amount s a), NegOutcome.amountUpdated true)
              else (with_amount s a, NegOutcome.amountUpdated false))) := by
  refine ⟨?_, ?_, ?_⟩
  · intro ha0
    subst ha0
    simp [try_handle_negotiation, hphone, hnr, hadj, hla, hla0, hparse, truthyQ, hstate]
  · intro ha0 hle
    have hane : a ≠ 0 := ne_of_gt ha0
    simp [try_handle_negotiation, hphone, hnr, hadj, hla, hla0, hparse, truthyQ, hstate,
      hane, not_le.mpr ha0, ge_iff_le, hle]
  · intro ha0 hlt
    have hane : a ≠ 0 := ne_of_gt ha0
    simp [try_handle_negotiation, hphone, hnr, hadj, hla, hla0, hparse, truthyQ, hstate,
      hane, not_le.mpr ha0, ge_iff_le, not_le.mpr hlt, with_amount, apply_ite]

/-- C5 counterexample to the claim as stated: with loan 50000 on file, an
amount-adjustment utterance whose parsed amount is 0 — smaller than the
current amount — does not replace `loan_amount`; the resolver re-prompts and
leaves the session unchanged. -/
theorem c5_zero_amount_counterexample :
    sessLoan.collected_data.loan_amount = some 50000 ∧
    uAmountZero.extractNumber = some 0 ∧ (0 : ℚ) < 50000 ∧
    try_handle_negotiation crmEmpty uAmountZero ConvState.COLLECT_TENURE sessLoan =
      some (sessLoan, NegOutcome.amountUnclear) := by
  refine ⟨rfl, rfl, by norm_num, by decide⟩

/-- C5 witness: reducing the amount from 50000 to 30000 outside READY_TO_RUN
replaces the stored amount without re-running the pipeline. -/
theorem c5_amount_negotiation_witness :
    try_handle_negotiation crmEmpty uAmountSmaller ConvState.COLLECT_TENURE sessLoan =
      some (with_amount sessLoan 30000, NegOutcome.amountUpdated false) := by
  have h := (c5_amount_negotiation crmEmpty uAmountSmaller ConvState.COLLECT_TENURE sessLoan
    50000 30000 (by decide) rfl rfl (by decide) rfl (by norm_num) rfl
    (by norm_num)).2.2 (by norm_num) (by norm_num)
  rw [h, if_neg (by decide)]

/-- C6: whenever the stripped, lowercased utterance is one of the restart
keywords, the session is re-initialized in any state: COLLECT_PHONE, a fresh
context holding only the default rate, latest status and payload cleared,
and the retry counter reset. -/
theorem c6_restart (crm : String → Option Customer) (u : Utterance) (s : Session)
    (h : normalize_message u.text ∈ restart_keywords) :
    handle_user_message crm u s = reset_conversation ∧
    (handle_user_message crm u s).conversation_state = ConvState.COLLECT_PHONE ∧
    (handle_user_message crm u s).collected_data.customer_phone = none ∧
    (handle_user_message crm u s).collected_data.customer_name = none ∧
    (handle_user_message crm u s).collected_data.customer_profile = none ∧
    (handle_user_message crm u s).collected_data.loan_amount = none ∧
    (handle_user_message crm u s).collected_data.tenure_months = none ∧
    (handle_user_message crm u s).collected_data.monthly_salary = none ∧
    (handle_user_message crm u s).collected_data.annual_rate_pct = DEFAULT_RATE ∧
    (handle_user_message crm u s).latest_status = none ∧
    (handle_user_message crm u s).latest_payload = none ∧
    (handle_user_message crm u s).phone_retry_count = 0 := by
  have he : handle_user_message crm u s = reset_conversation := by
    unfold handle_user_message
    rw [if_pos h]
  rw [he]
  exact ⟨rfl, rfl, rfl, rfl, rfl, rfl, rfl, rfl, rfl, rfl, rfl, rfl⟩

/-- C6 witness: the utterance "reset" resets a fully collected session. -/
theorem c6_restart_witness :
    normalize_message uRestart.text ∈ restart_keywords ∧
    handle_user_message crmTest uRestart sessReady = reset_conversation :=
  ⟨by decide, (c6_restart crmTest uRestart sessReady (by decide)).1⟩

/-- C8: in COLLECT_PHONE, an utterance whose digits give a 10-digit phone the
provider does not recognize leaves the state COLLECT_PHONE and the
`customer_phone` field unset — the tentatively recorded phone is discarded. -/
theorem c8_unknown_phone (crm : String → Option Customer) (u : Utterance) (s : Session)
    (hstate : s.conversation_state = ConvState.COLLECT_PHONE)
    (hguard : normalize_message u.text ∉ restart_keywords)
    (hphone : truthyStr s.collected_data.customer_phone = false)
    (hlen : 10 ≤ (extract_digits u.text).length)
    (hcrm : crm (last_ten (extract_digits u.text)) = none) :
    (handle_user_message crm u s).conversation_state = ConvState.COLLECT_PHONE ∧
    (handle_user_message crm u s).collected_data.customer_phone = none := by
  have hneg : try_handle_negotiation crm u ConvState.COLLECT_PHONE s = none := by
    simp [try_handle_negotiation, hphone]
  have h0 : ¬ (extract_digits u.text).length = 0 := by omega
  have h10 : ¬ (extract_digits u.text).length < 10 := by omega
  simp only [handle_user_message]
  rw [if_neg hguard]
  simp only [hstate, hneg]
  rw [if_neg h0, if_neg h10, hcrm]
  exact ⟨rfl, rfl⟩

/-- C8 witness: a fresh session fed an unknown 10-digit number stays in
COLLECT_PHONE with no phone recorded. -/
theorem c8_unknown_phone_witness :
    (handle_user_message crmEmpty uPhoneDigits reset_conversation).conversation_state =
      ConvState.COLLECT_PHONE ∧
    (handle_user_message crmEmpty uPhoneDigits reset_conversation).collected_data.customer_phone =
      none :=
  c8_unknown_phone crmEmpty uPhoneDigits reset_conversation rfl (by decide) rfl (by decide) rfl

end BfsiDemo
